import Mathlib

/-!  Verification of the RoosterScan Express API against its specification.
  The definitions below are a shallow embedding of the TypeScript handlers:
  the pose-detection route, the scan mappers, the report creation
  handler and the auth helper.  JavaScript numbers are modelled as Rat,
  JavaScript undefined and null as Option, and the external process and
  JSON.parse as explicit parameters. -/

namespace RoosterScan

/-! Brace characters, used by the stdout JSON extraction model. -/

def openBrace : Char := Char.ofNat 123

def closeBrace : Char := Char.ofNat 125

def isOpenBrace (c : Char) : Bool := c = openBrace

def isCloseBrace (c : Char) : Bool := c = closeBrace

/-! Index search helpers modelling regex scanning over a character list. -/

def firstIdx (p : Char → Bool) : List Char → Option Nat
  | [] => none
  | a :: l => if p a then some 0 else (firstIdx p l).map (fun n => n + 1)

def lastIdx (p : Char → Bool) : List Char → Option Nat
  | [] => none
  | a :: l =>
    match lastIdx p l with
    | some j => some (j + 1)
    | none => if p a then some 0 else none

/-- Model of the greedy regex used at part_000 line 258 to pull a JSON
object out of the captured stdout: the match, when it exists, runs from
the first opening brace to the last closing brace of the whole text. -/
def jsonMatchL (cs : List Char) : Option (List Char) :=
  match firstIdx isOpenBrace cs, lastIdx isCloseBrace cs with
  | some i, some j => if i < j then some ((cs.drop i).take (j + 1 - i)) else none
  | _, _ => none

/-- String-level wrapper of the stdout JSON extraction. -/
def jsonMatchTS (s : String) : Option String :=
  (jsonMatchL s.data).map (fun l => String.mk l)

theorem firstIdx_append_of_none (p : Char → Bool) (l1 l2 : List Char)
    (h : ∀ c ∈ l1, p c = false) :
    firstIdx p (l1 ++ l2) = (firstIdx p l2).map (fun n => n + l1.length) := by
  induction l1 with
  | nil => simp [firstIdx]
  | cons a l ih =>
    have ha : p a = false := h a (List.mem_cons_self a l)
    have hl : ∀ c ∈ l, p c = false := fun c hc => h c (List.mem_cons_of_mem a hc)
    simp [firstIdx, ha, ih hl, Option.map_map, Function.comp, Nat.add_assoc]

theorem lastIdx_eq_none (p : Char → Bool) (l : List Char) (h : ∀ c ∈ l, p c = false) :
    lastIdx p l = none := by
  induction l with
  | nil => rfl
  | cons a l ih =>
    have ha : p a = false := h a (List.mem_cons_self a l)
    have hl : ∀ c ∈ l, p c = false := fun c hc => h c (List.mem_cons_of_mem a hc)
    simp [lastIdx, ha, ih hl]

theorem lastIdx_append_of_none (p : Char → Bool) (l1 l2 : List Char)
    (h : ∀ c ∈ l2, p c = false) :
    lastIdx p (l1 ++ l2) = lastIdx p l1 := by
  induction l1 with
  | nil => simp [lastIdx_eq_none p l2 h, lastIdx]
  | cons a l ih => simp [lastIdx, ih]

theorem lastIdx_concat (p : Char → Bool) (l : List Char) (a : Char) (ha : p a = true) :
    lastIdx p (l ++ [a]) = some l.length := by
  induction l with
  | nil => simp [lastIdx, ha]
  | cons b l ih => simp [lastIdx, ih]

/-- When the captured stdout is leading text with no opening brace,
then one brace-delimited object, then trailing text with no closing
brace, the regex model extracts exactly that object. -/
theorem jsonMatchL_extract (pre mid post : List Char)
    (hpre : ∀ c ∈ pre, isOpenBrace c = false)
    (hpost : ∀ c ∈ post, isCloseBrace c = false) :
    jsonMatchL (pre ++ (openBrace :: (mid ++ [closeBrace])) ++ post)
      = some (openBrace :: (mid ++ [closeBrace])) := by
  have hopen : isOpenBrace openBrace = true := by decide
  have hclose : isCloseBrace closeBrace = true := by decide
  have hfi : firstIdx isOpenBrace (pre ++ (openBrace :: (mid ++ [closeBrace])) ++ post)
      = some pre.length := by
    rw [List.append_assoc, firstIdx_append_of_none isOpenBrace pre _ hpre]
    simp [firstIdx, hopen]
  have hlist : pre ++ (openBrace :: (mid ++ [closeBrace])) ++ post
      = ((pre ++ openBrace :: mid) ++ [closeBrace]) ++ post := by simp
  have hla : lastIdx isCloseBrace (pre ++ (openBrace :: (mid ++ [closeBrace])) ++ post)
      = some (pre.length + (mid.length + 1)) := by
    rw [hlist, lastIdx_append_of_none isCloseBrace _ post hpost,
      lastIdx_concat isCloseBrace _ closeBrace hclose]
    simp [Nat.add_assoc]
  rw [jsonMatchL, hfi, hla]
  have hlt : pre.length < pre.length + (mid.length + 1) := by omega
  show (if pre.length < pre.length + (mid.length + 1) then
      some (List.take (pre.length + (mid.length + 1) + 1 - pre.length)
        (List.drop pre.length (pre ++ openBrace :: (mid ++ [closeBrace]) ++ post)))
    else none) = some (openBrace :: (mid ++ [closeBrace]))
  rw [if_pos hlt]
  have harith : pre.length + (mid.length + 1) + 1 - pre.length = mid.length + 2 := by omega
  rw [harith, List.append_assoc, List.drop_left]
  have hlen : (openBrace :: (mid ++ [closeBrace])).length = mid.length + 2 := by simp
  rw [← hlen, List.take_left]

/-- String-level version of the extraction lemma. -/
theorem jsonMatchTS_extract (pre mid post : List Char) (output : String)
    (hout : output.data = pre ++ (openBrace :: (mid ++ [closeBrace])) ++ post)
    (hpre : ∀ c ∈ pre, isOpenBrace c = false)
    (hpost : ∀ c ∈ post, isCloseBrace c = false) :
    jsonMatchTS output = some (String.mk (openBrace :: (mid ++ [closeBrace]))) := by
  rw [jsonMatchTS, hout, jsonMatchL_extract pre mid post hpre hpost]
  rfl

/-! JavaScript truthiness helpers used by the handlers. -/

/-- Models the JavaScript expression a OR d for strings: the empty
string and undefined are falsy. -/
def jsOr (o : Option String) (d : String) : String :=
  match o with
  | some s => if s = "" then d else s
  | none => d

/-- Models JavaScript NOT on an optional string: undefined and the
empty string are falsy. -/
def jsStrFalsy (o : Option String) : Bool :=
  match o with
  | some s => s = ""
  | none => true

/-- Model of the JavaScript trim method: drop whitespace from both
ends of the character list. -/
def jsTrim (s : String) : String :=
  String.mk (((s.data.dropWhile Char.isWhitespace).reverse.dropWhile Char.isWhitespace).reverse)

/-- Models body.field?.trim() OR null as used by the report handler. -/
def trimOrNull (o : Option String) : Option String :=
  match o with
  | some s => if jsTrim s = "" then none else some (jsTrim s)
  | none => none

/-- Models body.field OR null for numbers: zero and undefined are falsy. -/
def numOrNull (o : Option Rat) : Option Rat :=
  match o with
  | some x => if x = 0 then none else some x
  | none => none

/-! Data shapes of the pose-detection route (src/unnamed part_000). -/

structure PoseKeypoint where
  name : String
  x : Rat
  y : Rat
  confidence : Rat
  deriving DecidableEq

structure PoseDetection where
  keypoints : Option (List PoseKeypoint) := none
  pose_confidence : Option Rat := none
  deriving DecidableEq

/-- The JSON object produced by the external sequential-analysis
process, restricted to the fields the route reads.  The untouched
injury_classification blob is carried as an opaque string. -/
structure ParsedResult where
  success : Bool
  analysis_type : Option String := none
  overall_status : Option String := none
  pose_detection : Option PoseDetection := none
  injury_classification : Option String := none
  health_assessment : Option String := none
  combined_confidence : Option Rat := none
  recommendations : Option (List String) := none
  specific_findings : Option (List String) := none
  error : Option String := none
  stage : Option String := none
  deriving DecidableEq

structure CombinedAnalysis where
  health_assessment : Option String := none
  combined_confidence : Option Rat := none
  recommendations : Option (List String) := none
  specific_findings : Option (List String) := none
  deriving DecidableEq

structure InjuryAnalysis where
  risk_level : String
  detected_issues : List String
  recommendations : List String
  deriving DecidableEq

/-- JSON body sent by the pose-detection route, restricted to the
fields any of its branches can set. -/
structure RespBody where
  success : Bool
  error : Option String := none
  stage : Option String := none
  analysis_type : Option String := none
  overall_status : Option String := none
  keypoints : Option (List PoseKeypoint) := none
  confidence : Option Rat := none
  pose_confidence : Option Rat := none
  health_assessment : Option String := none
  recommendations : Option (List String) := none
  pose_detection : Option PoseDetection := none
  injury_classification : Option String := none
  combined_analysis : Option CombinedAnalysis := none
  injury_analysis : Option InjuryAnalysis := none
  deriving DecidableEq

/-- The three recommendation strings of the degraded mode, part_000
lines 183 to 187. -/
def mockRecommendations : List String :=
  ["AI models not deployed - showing mock data",
   "Upload successful - frontend integration working",
   "Deploy AI models to Railway to enable real analysis"]

/-- The placeholder keypoints of the degraded mode, part_000 lines 175
to 179. -/
def mockKeypoints : List PoseKeypoint :=
  [⟨"beak_tip", 100, 50, 9/10⟩,
   ⟨"eye", 120, 60, 85/100⟩,
   ⟨"comb_top", 110, 30, 8/10⟩]

/-- The canned success payload returned when the pose model file is
absent, part_000 lines 173 to 207. -/
def mockBody : RespBody :=
  { success := true
    keypoints := some mockKeypoints
    confidence := some (85/100)
    pose_confidence := some (85/100)
    health_assessment := some "healthy"
    recommendations := some mockRecommendations
    combined_analysis := some
      { health_assessment := some "healthy"
        combined_confidence := some (85/100)
        recommendations := some mockRecommendations
        specific_findings := some [] }
    injury_analysis := some
      { risk_level := "low"
        detected_issues := []
        recommendations := mockRecommendations } }

def noFileBody : RespBody :=
  { success := false, error := some "No image file provided" }

def noBumblefootBody : RespBody :=
  { success := false, error := some "Bumblefoot classification model not found" }

def noScriptBody : RespBody :=
  { success := false, error := some "Sequential analysis script not found" }

/-- Presence on disk of the three artifacts the route checks before
spawning the external process. -/
structure FsState where
  poseModelExists : Bool
  bumblefootModelExists : Bool
  scriptExists : Bool
  deriving DecidableEq

inductive PreSpawn where
  | immediate (status : Nat) (body : RespBody)
  | proceed
  deriving DecidableEq

/-- The branches of the route handler that run before any process is
spawned, part_000 lines 155 to 229. -/
def detectPreSpawn (hasFile : Bool) (fsState : FsState) : PreSpawn :=
  if !hasFile then PreSpawn.immediate 400 noFileBody
  else if !fsState.poseModelExists then PreSpawn.immediate 200 mockBody
  else if !fsState.bumblefootModelExists then PreSpawn.immediate 500 noBumblefootBody
  else if !fsState.scriptExists then PreSpawn.immediate 500 noScriptBody
  else PreSpawn.proceed

/-- The response reshaping of a parsed result whose success field is
true, part_000 lines 267 to 292. -/
def successResponse (result : ParsedResult) : RespBody :=
  { success := true
    analysis_type := some (jsOr result.analysis_type "sequential_validation")
    overall_status := result.overall_status
    keypoints := some ((result.pose_detection.bind PoseDetection.keypoints).getD [])
    confidence := some ((result.pose_detection.bind PoseDetection.pose_confidence).getD 0)
    pose_detection := result.pose_detection
    injury_classification := result.injury_classification
    combined_analysis := some
      { health_assessment := result.health_assessment
        combined_confidence := result.combined_confidence
        recommendations := result.recommendations
        specific_findings := result.specific_findings }
    injury_analysis := some
      { risk_level := if result.health_assessment = some "injured" then "high" else "low"
        detected_issues := result.specific_findings.getD []
        recommendations := result.recommendations.getD [] } }

/-- The failure branch for a parsed result whose success field is
false, part_000 lines 296 to 301. -/
def analysisFailedBody (result : ParsedResult) : RespBody :=
  { success := false
    error := some (jsOr result.error "Sequential analysis failed")
    stage := some (jsOr result.stage "unknown") }

def parsedBranch (result : ParsedResult) : Nat × RespBody :=
  if result.success then (200, successResponse result) else (500, analysisFailedBody result)

/-- The close callback of the spawned process, part_000 lines 241 to
309, with JSON.parse abstracted as the parse parameter.  The unlink of
the temporary image, which the callback performs first, is recorded by
detectRoute below. -/
def closeHandler (parse : String → Except String ParsedResult)
    (code : Int) (output stderrText : String) : Nat × RespBody :=
  if code ≠ 0 then
    (500, { success := false, error := some ("Pose detection failed: " ++ stderrText) })
  else
    match jsonMatchTS output with
    | none =>
      (500, { success := false,
              error := some ("Failed to parse sequential analysis results: No JSON found in output. Output: " ++ output) })
    | some matched =>
      match parse matched with
      | Except.error msg =>
        (500, { success := false,
                error := some ("Failed to parse sequential analysis results: " ++ msg ++ ". Output: " ++ output) })
      | Except.ok result => parsedBranch result

/-- Observable outcome of one pose-detection request: response status
and body, whether the external process was spawned, and how many times
the temporary image was unlinked. -/
structure DetectResult where
  status : Nat
  body : RespBody
  spawned : Bool
  unlinkCount : Nat
  deriving DecidableEq

/-- The whole pose-detection request handler.  When the pre-spawn
branches answer, no process runs and no unlink happens; otherwise the
process runs once, its close callback unlinks the image once and then
builds the response from the exit code and the captured streams. -/
def detectRoute (hasFile : Bool) (fsState : FsState)
    (parse : String → Except String ParsedResult)
    (code : Int) (output stderrText : String) : DetectResult :=
  match detectPreSpawn hasFile fsState with
  | PreSpawn.immediate st b => ⟨st, b, false, 0⟩
  | PreSpawn.proceed =>
    let r := closeHandler parse code output stderrText
    ⟨r.1, r.2, true, 1⟩

/-! Auth helper (src/client/modules/camera/FrameExtractor.ts lines 308
to 322 of the bundled server lib). -/

/-- Direct translation of getUserIdFromAuth: every path, including the
one for a well-formed bearer token, returns the same placeholder UUID. -/
def getUserIdFromAuth (authHeader : Option String) : String :=
  match authHeader with
  | none => "00000000-0000-0000-0000-000000000001"
  | some h =>
    if h.startsWith "Bearer " then
      "00000000-0000-0000-0000-000000000001"
    else
      "00000000-0000-0000-0000-000000000001"

/-! Scan mappers (src/client/modules/camera/types.ts, the bundled scans
route).  Only the fields feeding the legacy severity and injuries
computations are modelled. -/

structure InjuryDetection where
  type : Option String := none
  severity : Option String := none
  confidence : Option Rat := none
  deriving DecidableEq

structure ScanRow where
  injury_detections : Option (List InjuryDetection) := none
  analysis_confidence : Option Rat := none
  deriving DecidableEq

def hasSevereDetection (l : List InjuryDetection) : Bool :=
  l.any (fun inj => inj.severity = some "severe")

/-- Legacy severity of the getScans mapper, types.ts lines 109 to 111:
high when some entry is severe, medium when the array is nonempty
without a severe entry, else low. -/
def getScansSeverity (scan : ScanRow) : String :=
  match scan.injury_detections with
  | some l =>
    if 0 < l.length then (if hasSevereDetection l then "high" else "medium") else "low"
  | none => "low"

/-- Legacy severity of the getScanById mapper, types.ts line 172:
thresholds on the analysis confidence only. -/
def getScanByIdSeverity (scan : ScanRow) : String :=
  match scan.analysis_confidence with
  | some c => if (8 : Rat)/10 < c then "high" else if (5 : Rat)/10 < c then "medium" else "low"
  | none => "low"

/-- Legacy severity of the createScan mapper, types.ts line 287: same
expression as getScanById. -/
def createScanSeverity (scan : ScanRow) : String :=
  match scan.analysis_confidence with
  | some c => if (8 : Rat)/10 < c then "high" else if (5 : Rat)/10 < c then "medium" else "low"
  | none => "low"

/-! Report creation (src/server/routes/reports.ts). -/

/-- Row of the scans table as read by the report handler: the select
pulls id and injury_detections and filters on id and user_id. -/
structure ScanDbRow where
  id : String
  user_id : String
  injury_detections : Option (List InjuryDetection) := none
  deriving DecidableEq

structure CreateReportRequest where
  scanId : Option String := none
  roosterId : Option String := none
  title : Option String := none
  summary : Option String := none
  detailedAnalysis : Option String := none
  recommendations : Option String := none
  overallHealthScore : Option Rat := none
  mobilityScore : Option Rat := none
  postureScore : Option Rat := none
  reportType : Option String := none
  deriving DecidableEq

structure ReportRow where
  scan_id : String
  rooster_id : String
  user_id : String
  title : String
  summary : Option String
  detailed_analysis : Option String
  recommendations : Option String
  overall_health_score : Option Rat
  mobility_score : Option Rat
  posture_score : Option Rat
  total_injuries_detected : Nat
  high_priority_injuries : Nat
  report_type : String
  status : String
  deriving DecidableEq

/-- Outcome of one createReport request: HTTP status, success flag,
error message, the report echoed to the caller, and the rows written
to the health_reports table. -/
structure ReportResult where
  status : Nat
  success : Bool
  error : Option String
  report : Option ReportRow
  inserted : List ReportRow
  deriving DecidableEq

/-- The single() query of reports.ts lines 69 to 74: the scan whose id
matches the request and whose user_id matches the resolved caller. -/
def scanLookup (scans : List ScanDbRow) (scanId : Option String) (userId : String) :
    Option ScanDbRow :=
  scans.find? (fun s => decide (scanId = some s.id ∧ s.user_id = userId))

/-- The health_reports row built at reports.ts lines 88 to 103; the
injury counts are computed from the scan row just read. -/
def mkReportRow (body : CreateReportRequest) (userId : String) (scan : ScanDbRow) : ReportRow :=
  { scan_id := body.scanId.getD ""
    rooster_id := body.roosterId.getD ""
    user_id := userId
    title := jsTrim (body.title.getD "")
    summary := trimOrNull body.summary
    detailed_analysis := trimOrNull body.detailedAnalysis
    recommendations := trimOrNull body.recommendations
    overall_health_score := numOrNull body.overallHealthScore
    mobility_score := numOrNull body.mobilityScore
    posture_score := numOrNull body.postureScore
    total_injuries_detected := (scan.injury_detections.getD []).length
    high_priority_injuries :=
      ((scan.injury_detections.getD []).filter
        (fun inj => decide (inj.severity = some "severe"))).length
    report_type := jsOr body.reportType "automated"
    status := "draft" }

/-- The createReport handler of reports.ts lines 58 to 149: required
field validation, scan ownership lookup, then the insert. -/
def createReport (scans : List ScanDbRow) (authHeader : Option String)
    (body : CreateReportRequest) : ReportResult :=
  let userId := getUserIdFromAuth authHeader
  if jsStrFalsy body.scanId || jsStrFalsy body.roosterId
      || jsStrFalsy (body.title.map jsTrim) then
    ⟨400, false, some "scanId, roosterId, and title are required", none, []⟩
  else
    match scanLookup scans body.scanId userId with
    | none => ⟨404, false, some "Scan not found or access denied", none, []⟩
    | some scan =>
      let report := mkReportRow body userId scan
      ⟨201, true, none, some report, [report]⟩

/-! Concrete instances shared by several witnesses and counterexamples. -/

/-- A parse function that rejects every string, standing in for
JSON.parse wherever the parse result is irrelevant. -/
def parse0 : String → Except String ParsedResult := fun _ => Except.error "no parse"

/-- Filesystem state with every artifact present. -/
def fsAll : FsState := ⟨true, true, true⟩

/-- Claim C10: getUserIdFromAuth returns the fixed placeholder UUID for
every input, absent, malformed or a well-formed bearer token, so the
per-user row filtering never distinguishes callers. -/
theorem C10_theorem :
    (∀ h, getUserIdFromAuth h = "00000000-0000-0000-0000-000000000001")
    ∧ ∀ a b, getUserIdFromAuth a = getUserIdFromAuth b := by
  have hconst : ∀ h, getUserIdFromAuth h = "00000000-0000-0000-0000-000000000001" := by
    intro h
    cases h with
    | none => rfl
    | some s => simp [getUserIdFromAuth]
  exact ⟨hconst, fun a b => (hconst a).trans (hconst b).symm⟩

/-- Claim C1 counterexample: with the pose model present and the
bumblefoot model absent, the route answers 500 with success false and
not the canned success payload, refuting the either-artifact reading
of the claim. -/
theorem C1_counterexample :
    (FsState.mk true false true).bumblefootModelExists = false
    ∧ detectRoute true (FsState.mk true false true) parse0 0 "" ""
        = ⟨500, noBumblefootBody, false, 0⟩
    ∧ noBumblefootBody.success = false
    ∧ mockBody.success = true :=
  ⟨rfl, rfl, rfl, rfl⟩

/-- Claim C1 amended: the canned mock success payload is returned,
regardless of the input image and of the process behaviour and with no
process spawned, exactly when the pose model is absent; when the pose
model is present but the bumblefoot model or the analysis script is
absent, the route answers 500 with success false, again spawning
nothing. -/
theorem C1_theorem (fsState : FsState) (parse : String → Except String ParsedResult)
    (code : Int) (output stderrText : String) :
    (fsState.poseModelExists = false →
      detectRoute true fsState parse code output stderrText = ⟨200, mockBody, false, 0⟩)
    ∧ (fsState.poseModelExists = true → fsState.bumblefootModelExists = false →
      detectRoute true fsState parse code output stderrText
        = ⟨500, noBumblefootBody, false, 0⟩)
    ∧ (fsState.poseModelExists = true → fsState.bumblefootModelExists = true →
        fsState.scriptExists = false →
      detectRoute true fsState parse code output stderrText
        = ⟨500, noScriptBody, false, 0⟩) := by
  obtain ⟨p, b, s⟩ := fsState
  cases p <;> cases b <;> cases s <;> simp [detectRoute, detectPreSpawn]

/-- Witness for the amended C1 at two concrete filesystem states. -/
theorem C1_witness :
    detectRoute true (FsState.mk false true true) parse0 0 "" "" = ⟨200, mockBody, false, 0⟩
    ∧ detectRoute true (FsState.mk true false true) parse0 0 "" ""
        = ⟨500, noBumblefootBody, false, 0⟩ :=
  ⟨(C1_theorem (FsState.mk false true true) parse0 0 "" "").1 rfl,
   (C1_theorem (FsState.mk true false true) parse0 0 "" "").2.1 rfl rfl⟩

/-- Claim C2 counterexample: in the degraded mock branch the request
completes with status 200 and the temporary image is never unlinked. -/
theorem C2_counterexample :
    (detectRoute true (FsState.mk false true true) parse0 0 "" "").unlinkCount = 0
    ∧ (detectRoute true (FsState.mk false true true) parse0 0 "" "").status = 200 :=
  ⟨rfl, rfl⟩

/-- Claim C2 amended: the temporary image is unlinked exactly once when
and only when the external process is spawned, which happens exactly
when the upload and all three artifacts are present; the degraded mock
branch and the missing-artifact branches finish without deleting it. -/
theorem C2_theorem (hasFile : Bool) (fsState : FsState)
    (parse : String → Except String ParsedResult) (code : Int) (output stderrText : String) :
    (detectRoute hasFile fsState parse code output stderrText).unlinkCount
      = cond (detectRoute hasFile fsState parse code output stderrText).spawned 1 0
    ∧ ((detectRoute hasFile fsState parse code output stderrText).spawned = true
        ↔ hasFile = true ∧ fsState.poseModelExists = true
          ∧ fsState.bumblefootModelExists = true ∧ fsState.scriptExists = true) := by
  obtain ⟨p, b, s⟩ := fsState
  cases hasFile <;> cases p <;> cases b <;> cases s <;> simp [detectRoute, detectPreSpawn]

/-- Claim C6: when all artifacts are present and the spawned process
exits with a non-zero status, the response is a 500 with success false
whose error text embeds the captured stderr, and the temporary file
was unlinked exactly once before the response went out. -/
theorem C6_theorem (parse : String → Except String ParsedResult)
    (code : Int) (output stderrText : String) (hcode : code ≠ 0) :
    detectRoute true fsAll parse code output stderrText
      = ⟨500,
          { success := false, error := some ("Pose detection failed: " ++ stderrText) },
          true, 1⟩ := by
  simp [detectRoute, detectPreSpawn, fsAll, closeHandler, hcode]

/-- Witness for C6 at exit code one and stderr boom. -/
theorem C6_witness :
    detectRoute true fsAll parse0 1 "" "boom"
      = ⟨500,
          { success := false, error := some ("Pose detection failed: " ++ "boom") },
          true, 1⟩ :=
  C6_theorem parse0 1 "" "boom" (by decide)

/-- Claim C7: exit code zero with no brace-delimited substring in the
captured stdout yields a 500 failure whose error is the No JSON found
message with the raw output appended, and the file was unlinked once. -/
theorem C7_theorem (parse : String → Except String ParsedResult)
    (output stderrText : String) (hno : jsonMatchTS output = none) :
    detectRoute true fsAll parse 0 output stderrText
      = ⟨500,
          { success := false,
            error := some ("Failed to parse sequential analysis results: No JSON found in output. Output: " ++ output) },
          true, 1⟩ := by
  simp [detectRoute, detectPreSpawn, fsAll, closeHandler, hno]

/-- Witness for C7 on a stdout with no braces at all. -/
theorem C7_witness :
    detectRoute true fsAll parse0 0 "rooster log only" ""
      = ⟨500,
          { success := false,
            error := some ("Failed to parse sequential analysis results: No JSON found in output. Output: " ++ "rooster log only") },
          true, 1⟩ :=
  C7_theorem parse0 "rooster log only" "" (by decide)

/-- Modelled from the spec sentence, for comparison only: risk_level
high when the assessment is not healthy, else low. -/
def specRiskLevel (assessment : Option String) : String :=
  if assessment = some "healthy" then "low" else "high"

/-- A successful parsed result whose assessment is bumblefoot. -/
def bumblefootResult : ParsedResult :=
  { success := true, health_assessment := some "bumblefoot" }

/-- Claim C3 counterexample: a successful result assessed bumblefoot,
which is not healthy, still gets risk_level low from the code, while
the not-healthy formula of the claim demands high. -/
theorem C3_counterexample :
    bumblefootResult.success = true
    ∧ bumblefootResult.health_assessment = some "bumblefoot"
    ∧ (successResponse bumblefootResult).injury_analysis
        = some { risk_level := "low", detected_issues := [], recommendations := [] }
    ∧ specRiskLevel bumblefootResult.health_assessment = "high" := by
  refine ⟨rfl, rfl, by decide, by decide⟩

/-- Claim C3 amended: for a parsed result with success true, the legacy
risk_level is high exactly when the health assessment is the exact
string injured, and low for every other value, including unhealthy
values other than injured. -/
theorem C3_theorem (result : ParsedResult) (_hs : result.success = true) :
    ∃ ia, (successResponse result).injury_analysis = some ia
      ∧ (ia.risk_level = "high" ↔ result.health_assessment = some "injured")
      ∧ (result.health_assessment ≠ some "injured" → ia.risk_level = "low") := by
  by_cases hh : result.health_assessment = some "injured"
  · exact ⟨_, rfl, by simp [successResponse, hh], fun hne => absurd hh hne⟩
  · exact ⟨_, rfl, by simp [successResponse, hh], fun _ => by simp [successResponse, hh]⟩

/-- A successful parsed result whose assessment is injured. -/
def injuredResult : ParsedResult :=
  { success := true, health_assessment := some "injured" }

/-- Witness for the amended C3 at the injured assessment. -/
theorem C3_witness :
    ∃ ia, (successResponse injuredResult).injury_analysis = some ia
      ∧ (ia.risk_level = "high" ↔ injuredResult.health_assessment = some "injured")
      ∧ (injuredResult.health_assessment ≠ some "injured" → ia.risk_level = "low") :=
  C3_theorem injuredResult rfl

/-- A scan row with one severe detection and a low analysis confidence. -/
def severeLowConfRow : ScanRow :=
  { injury_detections := some [{ type := some "bumblefoot", severity := some "severe" }]
    analysis_confidence := some ((3 : Rat)/10) }

/-- Claim C4 counterexample: a scan with a severe detection entry and
analysis confidence three tenths; the getScanById and createScan
mappers output severity low although an entry is severe. -/
theorem C4_counterexample :
    hasSevereDetection (severeLowConfRow.injury_detections.getD []) = true
    ∧ getScanByIdSeverity severeLowConfRow = "low"
    ∧ createScanSeverity severeLowConfRow = "low" := by
  have h8 : ¬((8 : Rat)/10 < (3 : Rat)/10) := by norm_num
  have h5 : ¬((5 : Rat)/10 < (3 : Rat)/10) := by norm_num
  refine ⟨by decide, ?_, ?_⟩ <;>
    simp [getScanByIdSeverity, createScanSeverity, severeLowConfRow, h8, h5]

/-- Claim C4 amended: only the getScans mapper derives the legacy
severity from the injury entries, high exactly when one is severe,
medium exactly when the array is nonempty without a severe entry, low
exactly when it is empty or absent, never consulting the confidence;
getScanById and createScan share one formula that uses the analysis
confidence thresholds only, high exactly above eight tenths, medium
exactly above five tenths and at most eight tenths, low exactly at or
below five tenths or with the confidence absent, and ignores the
injury entries. -/
theorem C4_theorem (scan : ScanRow) :
    createScanSeverity scan = getScanByIdSeverity scan
    ∧ getScanByIdSeverity scan
        = getScanByIdSeverity { scan with injury_detections := none }
    ∧ getScansSeverity scan
        = getScansSeverity { scan with analysis_confidence := none }
    ∧ (getScansSeverity scan = "high"
        ↔ hasSevereDetection (scan.injury_detections.getD []) = true)
    ∧ (getScansSeverity scan = "medium"
        ↔ ∃ l, scan.injury_detections = some l ∧ 0 < l.length
            ∧ hasSevereDetection l = false)
    ∧ (getScansSeverity scan = "low" ↔ scan.injury_detections.getD [] = [])
    ∧ (getScanByIdSeverity scan = "high"
        ↔ ∃ c, scan.analysis_confidence = some c ∧ (8 : Rat)/10 < c)
    ∧ (getScanByIdSeverity scan = "medium"
        ↔ ∃ c, scan.analysis_confidence = some c ∧ (5 : Rat)/10 < c ∧ c ≤ (8 : Rat)/10)
    ∧ (getScanByIdSeverity scan = "low"
        ↔ (scan.analysis_confidence = none
            ∨ ∃ c, scan.analysis_confidence = some c ∧ c ≤ (5 : Rat)/10)) := by
  obtain ⟨d, a⟩ := scan
  have h58 : (5 : Rat)/10 < (8 : Rat)/10 := by norm_num
  refine ⟨rfl, rfl, rfl, ?_, ?_, ?_, ?_, ?_, ?_⟩
  · cases d with
    | none => simp [getScansSeverity, hasSevereDetection]
    | some l =>
      cases l with
      | nil => simp [getScansSeverity, hasSevereDetection]
      | cons x xs =>
        by_cases hs : hasSevereDetection (x :: xs) = true
        · simp [getScansSeverity, hs]
        · rw [Bool.not_eq_true] at hs
          simp [getScansSeverity, hs]
  · cases d with
    | none => simp [getScansSeverity]
    | some l =>
      cases l with
      | nil => simp [getScansSeverity]
      | cons x xs =>
        by_cases hs : hasSevereDetection (x :: xs) = true
        · simp [getScansSeverity, hs]
        · rw [Bool.not_eq_true] at hs
          simp [getScansSeverity, hs]
  · cases d with
    | none => simp [getScansSeverity]
    | some l =>
      cases l with
      | nil => simp [getScansSeverity]
      | cons x xs =>
        by_cases hs : hasSevereDetection (x :: xs) = true
        · simp [getScansSeverity, hs]
        · rw [Bool.not_eq_true] at hs
          simp [getScansSeverity, hs]
  · cases a with
    | none => simp [getScanByIdSeverity]
    | some c =>
      by_cases h8 : (8 : Rat)/10 < c
      · simp [getScanByIdSeverity, h8]
      · by_cases h5 : (5 : Rat)/10 < c
        · simp [getScanByIdSeverity, h8, h5]
        · simp [getScanByIdSeverity, h8, h5]
  · cases a with
    | none => simp [getScanByIdSeverity]
    | some c =>
      by_cases h8 : (8 : Rat)/10 < c
      · have hnle : ¬(c ≤ (8 : Rat)/10) := not_le.mpr h8
        simp [getScanByIdSeverity, h8, hnle]
      · by_cases h5 : (5 : Rat)/10 < c
        · have hle : c ≤ (8 : Rat)/10 := not_lt.mp h8
          simp [getScanByIdSeverity, h8, h5, hle]
        · simp [getScanByIdSeverity, h8, h5]
  · cases a with
    | none => simp [getScanByIdSeverity]
    | some c =>
      by_cases h8 : (8 : Rat)/10 < c
      · have hnle : ¬(c ≤ (5 : Rat)/10) := not_le.mpr (lt_trans h58 h8)
        simp [getScanByIdSeverity, h8, hnle]
      · by_cases h5 : (5 : Rat)/10 < c
        · have hnle : ¬(c ≤ (5 : Rat)/10) := not_le.mpr h5
          simp [getScanByIdSeverity, h8, h5, hnle]
        · have hle : c ≤ (5 : Rat)/10 := not_lt.mp h5
          simp [getScanByIdSeverity, h8, h5, hle]

/-- Parsed result standing for the empty JSON object. -/
def emptyObjResult : ParsedResult := { success := true }

/-- Concrete JSON.parse instance accepting exactly the empty object. -/
def parseEmptyObj : String → Except String ParsedResult :=
  fun s => if s = "\x7b\x7d" then Except.ok emptyObjResult else Except.error "Unexpected token"

/-- Claim C5 counterexample: stdout holding exactly one JSON object,
the empty one, with leading text a and trailing text b followed by a
stray closing brace; the greedy extraction runs to the last closing
brace, so it does not return the object and the request fails even
though the parser accepts the object itself. -/
theorem C5_counterexample :
    jsonMatchTS "a\x7b\x7db\x7d" = some "\x7b\x7db\x7d"
    ∧ jsonMatchTS "a\x7b\x7db\x7d" ≠ some "\x7b\x7d"
    ∧ parseEmptyObj "\x7b\x7d" = Except.ok emptyObjResult
    ∧ closeHandler parseEmptyObj 0 "a\x7b\x7db\x7d" ""
        = (500,
           { success := false,
             error := some ("Failed to parse sequential analysis results: Unexpected token. Output: " ++ "a\x7b\x7db\x7d") }) := by
  refine ⟨by decide, by decide, by simp [parseEmptyObj], by decide⟩

/-- Claim C5 amended: on zero exit, when the captured stdout consists
of leading text without an opening brace, one brace-delimited object,
and trailing text without a closing brace, the handler extracts
exactly that object, and when the parser accepts it the handler
reaches the parsed branch, so the surrounding text causes no parse
failure response. -/
theorem C5_theorem (parse : String → Except String ParsedResult) (result : ParsedResult)
    (pre mid post : List Char) (output stderrText : String)
    (hout : output.data = pre ++ (openBrace :: (mid ++ [closeBrace])) ++ post)
    (hpre : ∀ c ∈ pre, isOpenBrace c = false)
    (hpost : ∀ c ∈ post, isCloseBrace c = false)
    (hparse : parse (String.mk (openBrace :: (mid ++ [closeBrace]))) = Except.ok result) :
    jsonMatchTS output = some (String.mk (openBrace :: (mid ++ [closeBrace])))
    ∧ closeHandler parse 0 output stderrText = parsedBranch result := by
  have hm := jsonMatchTS_extract pre mid post output hout hpre hpost
  refine ⟨hm, ?_⟩
  simp [closeHandler, hm, hparse]

/-- Witness for the amended C5: stdout log followed by the empty
object, with the accepting parser. -/
theorem C5_witness :
    jsonMatchTS "log \x7b\x7d" = some (String.mk (openBrace :: ([] ++ [closeBrace])))
    ∧ closeHandler parseEmptyObj 0 "log \x7b\x7d" "" = parsedBranch emptyObjResult :=
  C5_theorem parseEmptyObj emptyObjResult ("log ".data) [] [] "log \x7b\x7d" ""
    (by decide) (by decide) (by decide)
    (by
      have h : String.mk [openBrace, closeBrace] = "\x7b\x7d" := by decide
      simp [parseEmptyObj, h])

/-- Claim C8: a report creation request that passes the required-field
validation but names a scan id with no matching row owned by the
resolved caller gets a 404 with success false, writes no health
reports row, and the response carries no scan data of any user. -/
theorem C8_theorem (scans : List ScanDbRow) (authHeader : Option String)
    (body : CreateReportRequest)
    (h1 : jsStrFalsy body.scanId = false)
    (h2 : jsStrFalsy body.roosterId = false)
    (h3 : jsStrFalsy (body.title.map jsTrim) = false)
    (hno : ∀ s ∈ scans,
      ¬(body.scanId = some s.id ∧ s.user_id = getUserIdFromAuth authHeader)) :
    createReport scans authHeader body
      = ⟨404, false, some "Scan not found or access denied", none, []⟩ := by
  have hlookup : scanLookup scans body.scanId (getUserIdFromAuth authHeader) = none := by
    rw [scanLookup, List.find?_eq_none]
    intro s hs
    simpa using hno s hs
  simp [createReport, h1, h2, h3, hlookup]

/-- A scan row owned by a different user id than the placeholder. -/
def otherUserScan : ScanDbRow :=
  { id := "scan-1", user_id := "5555", injury_detections := none }

/-- Well-formed report request naming scan-1. -/
def reportBody1 : CreateReportRequest :=
  { scanId := some "scan-1", roosterId := some "r-1", title := some "Weekly check" }

/-- Witness for C8: the only scan with the requested id belongs to
another user, so the request gets the 404 and nothing is written. -/
theorem C8_witness :
    createReport [otherUserScan] none reportBody1
      = ⟨404, false, some "Scan not found or access denied", none, []⟩ :=
  C8_theorem [otherUserScan] none reportBody1 rfl rfl (by decide) (by decide)

/-- Claim C9: a successfully created report snapshots its injury
counts from the scan row as read at creation time: the total equals
the number of entries of the scans injury array and the high priority
count equals the number of severe ones. -/
theorem C9_theorem (scans : List ScanDbRow) (authHeader : Option String)
    (body : CreateReportRequest) (scan : ScanDbRow)
    (h1 : jsStrFalsy body.scanId = false)
    (h2 : jsStrFalsy body.roosterId = false)
    (h3 : jsStrFalsy (body.title.map jsTrim) = false)
    (hfind : scanLookup scans body.scanId (getUserIdFromAuth authHeader) = some scan) :
    createReport scans authHeader body
        = ⟨201, true, none,
            some (mkReportRow body (getUserIdFromAuth authHeader) scan),
            [mkReportRow body (getUserIdFromAuth authHeader) scan]⟩
    ∧ (mkReportRow body (getUserIdFromAuth authHeader) scan).total_injuries_detected
        = (scan.injury_detections.getD []).length
    ∧ (mkReportRow body (getUserIdFromAuth authHeader) scan).high_priority_injuries
        = ((scan.injury_detections.getD []).filter
            (fun inj => decide (inj.severity = some "severe"))).length := by
  refine ⟨?_, rfl, rfl⟩
  simp [createReport, h1, h2, h3, hfind]

/-- A scan row owned by the placeholder user with one severe and one
mild detection. -/
def ownScan : ScanDbRow :=
  { id := "scan-2", user_id := "00000000-0000-0000-0000-000000000001",
    injury_detections := some [{ severity := some "severe" }, { severity := some "mild" }] }

/-- Well-formed report request naming scan-2. -/
def reportBody2 : CreateReportRequest :=
  { scanId := some "scan-2", roosterId := some "r-2", title := some "Post scan report" }

/-- Witness for C9 on a concrete owned scan with two detections, one
of them severe. -/
theorem C9_witness :
    createReport [ownScan] none reportBody2
        = ⟨201, true, none,
            some (mkReportRow reportBody2 (getUserIdFromAuth none) ownScan),
            [mkReportRow reportBody2 (getUserIdFromAuth none) ownScan]⟩
    ∧ (mkReportRow reportBody2 (getUserIdFromAuth none) ownScan).total_injuries_detected
        = (ownScan.injury_detections.getD []).length
    ∧ (mkReportRow reportBody2 (getUserIdFromAuth none) ownScan).high_priority_injuries
        = ((ownScan.injury_detections.getD []).filter
            (fun inj => decide (inj.severity = some "severe"))).length :=
  C9_theorem [ownScan] none reportBody2 ownScan rfl rfl (by decide) (by decide)

end RoosterScan
